import Mathlib

/-!
Shallow embedding of `aods.py`, a minimal build-configuration and
Makefile generator.  External collaborators (the `os.mkdir` call, the
`pkg-config` tool and the C compiler subprocess) are modelled as oracle
functions supplied as parameters; everything else is translated
directly from the Python source.
-/

set_option autoImplicit false

namespace Aods

/-- Outcome of the external `os.mkdir` call, supplied as an oracle. -/
inductive MkdirResult where
  | created
  | alreadyExists
  | permissionDenied
  | otherError
deriving DecidableEq, Repr

/-- Embeds `make_dir` (aods.py lines 202-206): `try: os.mkdir(dir)`
followed by a bare `except: return`, so every outcome of the mkdir
oracle — including permission errors — is swallowed and the function
returns successfully. -/
def make_dir (osMkdir : String → MkdirResult) (dir : String) : Except String Unit :=
  match osMkdir dir with
  | _ => Except.ok ()

/-- Embeds Python `name.split(sep)` for a one-character separator:
returns the first field and the list of remaining fields.  On the empty
string it returns `("", [])`, matching `"".split(".") == [""]`. -/
def py_split (sep : Char) : List Char → List Char × List (List Char)
  | [] => ([], [])
  | c :: cs =>
    let r := py_split sep cs
    if c = sep then ([], r.1 :: r.2)
    else (c :: r.1, r.2)

/-- Embeds `base_name` (aods.py lines 209-210): `name.split(".")[0]`. -/
def base_name (name : String) : String :=
  String.mk (py_split '.' name.data).1

/-- Embeds `file_name` (aods.py lines 213-214), i.e. posix
`os.path.basename`: the portion of the path after the last slash. -/
def file_name (path : String) : String :=
  String.mk (path.data.foldl (fun acc c => if c = '/' then [] else acc ++ [c]) [])

/-- Embeds Python `str.strip()`: drop leading and trailing whitespace
characters. -/
def py_strip (s : String) : String :=
  String.mk (((s.data.dropWhile Char.isWhitespace).reverse.dropWhile
    Char.isWhitespace).reverse)

/-- The mutable state of the Python `Context` class (aods.py lines
8-25); the underscore-prefixed attributes become plain fields. -/
structure Context where
  sources : List String
  includes : List String
  dependencies : List String
  flags : String
  libs : String
  name : String
  compiler : String
  build_dir : String
deriving DecidableEq, Repr

/-- Embeds `Context.__init__` together with the `build_dir` property
setter, which runs `make_dir` before storing the value (aods.py lines
9-25 and 47-51).  Because `make_dir` swallows every failure, creation
always succeeds, whatever the mkdir oracle reports. -/
def Context.create (osMkdir : String → MkdirResult) (name : String) (compiler : String)
    (build_dir : String) : Except String Context :=
  match make_dir osMkdir build_dir with
  | Except.error e => Except.error e
  | Except.ok _ =>
    Except.ok { sources := [], includes := [], dependencies := [], flags := "", libs := "",
                name := name, compiler := compiler, build_dir := build_dir }

/-- Embeds `object_name` (aods.py lines 136-138):
`f"{ctx.build_dir}/{base}.o"` with `base = base_name(file_name(source))`. -/
def object_name (ctx : Context) (source : String) : String :=
  ctx.build_dir ++ "/" ++ base_name (file_name source) ++ ".o"

/-- Embeds `Context.add_source` (aods.py lines 53-57); the list form of
the argument (the string form wraps the string in a singleton list). -/
def Context.add_source (ctx : Context) (source : List String) : Context :=
  { ctx with sources := ctx.sources ++ source }

/-- Embeds `Context.add_include` (aods.py lines 59-64); the loop of
appends amounts to list concatenation. -/
def Context.add_include (ctx : Context) (include_ : List String) : Context :=
  { ctx with includes := ctx.includes ++ include_ }

/-- One iteration of the `Context.add_flag` loop body (aods.py lines
85-89): a separating space when the accumulator is non-empty, then the
flag. -/
def flag_append (flags : String) (f : String) : String :=
  (if flags ≠ "" then flags ++ " " else flags) ++ f

/-- Embeds `Context.add_flag` (aods.py lines 81-89); only the `_flags`
attribute is mutated by the loop. -/
def Context.add_flag (ctx : Context) (flag : List String) : Context :=
  { ctx with flags := flag.foldl flag_append ctx.flags }

/-- Oracle for the external `pkg-config` tool: the exit code of
`pkg-config --exists <pkg>` and, for a batch of names, the
`(returncode, stdout)` of `pkg-config -cflags <names...>` and of
`pkg-config -libs <names...>`. -/
structure PkgConfig where
  exists_rc : String → Int
  cflags_run : List String → Int × String
  libs_run : List String → Int × String

/-- Embeds `pkgconfig_is_installed` (aods.py lines 217-220):
`returncode == 0`. -/
def pkgconfig_is_installed (pc : PkgConfig) (pkg : String) : Bool :=
  pc.exists_rc pkg == 0

/-- Embeds `pkgconfig_cflags` (aods.py lines 120-125): raises on
nonzero exit, else the stripped stdout. -/
def pkgconfig_cflags (pc : PkgConfig) (deps : List String) : Except String String :=
  let flags := pc.cflags_run deps
  if flags.1 ≠ 0 then Except.error "`pkg-config -cflags` failed"
  else Except.ok (py_strip flags.2)

/-- Embeds `pkgconfig_libs` (aods.py lines 128-133). -/
def pkgconfig_libs (pc : PkgConfig) (deps : List String) : Except String String :=
  let libs := pc.libs_run deps
  if libs.1 ≠ 0 then Except.error "pkg-config -libs failed"
  else Except.ok (py_strip libs.2)

/-- Embeds the `for d in dep: assert_installed(d)` loop of
`Context.add_dependency` (aods.py lines 72-73 with 223-225): the first
package of the batch failing the installed check, if any. -/
def firstNotInstalled (pc : PkgConfig) : List String → Option String
  | [] => none
  | d :: ds => if pkgconfig_is_installed pc d then firstNotInstalled pc ds else some d

/-- Embeds `Context.add_dependency` (aods.py lines 66-79).  The result
is the context state after the call together with the raised error, if
any: Python exceptions leave earlier attribute mutations in place, so
`_dependencies` is already extended when `assert_installed` raises, and
the separating space is already appended to `_flags` when
`pkgconfig_cflags` raises.  Note that `_libs` is extended with no
separating space (line 79). -/
def Context.add_dependency (ctx : Context) (pc : PkgConfig) (dep : List String) :
    Context × Option String :=
  let deps2 := ctx.dependencies ++ dep
  match firstNotInstalled pc dep with
  | some d => ({ ctx with dependencies := deps2 }, some ("`" ++ d ++ "` not installed!"))
  | none =>
    let flags1 := if ctx.flags ≠ "" then ctx.flags ++ " " else ctx.flags
    match pkgconfig_cflags pc dep with
    | Except.error e => ({ ctx with dependencies := deps2, flags := flags1 }, some e)
    | Except.ok cf =>
      match pkgconfig_libs pc dep with
      | Except.error e =>
        ({ ctx with dependencies := deps2, flags := flags1 ++ cf }, some e)
      | Except.ok lb =>
        ({ ctx with dependencies := deps2, flags := flags1 ++ cf,
                    libs := ctx.libs ++ lb }, none)

/-- Oracle for the compiler subprocess: `run(cmd)` returns
`(returncode, stdout, stderr)` for the argument vector. -/
structure Runner where
  run : List String → Int × String × String

/-- The argument vector of the dependency-scan invocation in
`mk_object` (aods.py lines 142-146):
`[compiler] + ["-I"+i ...] + ["-MT", object, "-MM", source]`. -/
def dep_scan_cmd (ctx : Context) (source : String) : List String :=
  ctx.compiler :: (ctx.includes.map (fun i => "-I" ++ i) ++
    ["-MT", object_name ctx source, "-MM", source])

/-- The compile command string built in `mk_object` (aods.py line 153). -/
def compile_cmd (ctx : Context) (source : String) : String :=
  ctx.compiler ++ " -c " ++ ctx.flags ++ " " ++
    String.intercalate " " (ctx.includes.map (fun i => "-I" ++ i)) ++
    " -o " ++ object_name ctx source ++ " " ++ source

/-- Embeds `mk_object` (aods.py lines 141-155): runs the dependency
scan, raises on nonzero exit, else returns
`(header stdout, compile command, source)`. -/
def mk_object (r : Runner) (ctx : Context) (source : String) :
    Except String (String × String × String) :=
  let header := r.run (dep_scan_cmd ctx source)
  if header.1 ≠ 0 then
    Except.error ("failed making a makefile entry for `" ++ source ++ "`:\n" ++ header.2.2)
  else
    Except.ok (header.2.1, compile_cmd ctx source, source)

/-- The list comprehension `[mk_object(self, source) for source in
self._sources]` (aods.py line 92): left to right, aborting on the first
raised exception. -/
def mk_objects (r : Runner) (ctx : Context) :
    List String → Except String (List (String × String × String))
  | [] => Except.ok []
  | s :: ss =>
    match mk_object r ctx s with
    | Except.error e => Except.error e
    | Except.ok o =>
      match mk_objects r ctx ss with
      | Except.error e => Except.error e
      | Except.ok os => Except.ok (o :: os)

/-- Embeds `mk_executable` (aods.py lines 158-164): the link rule
header and the link command. -/
def mk_executable (ctx : Context) : String × String :=
  (ctx.build_dir ++ "/" ++ ctx.name ++ ": " ++
     String.intercalate " " (ctx.sources.map (object_name ctx)),
   ctx.compiler ++ " " ++ ctx.flags ++ " " ++ ctx.libs ++ " -o " ++
     (ctx.build_dir ++ "/" ++ ctx.name) ++ " " ++
     String.intercalate " " (ctx.sources.map (object_name ctx)))

/-- One element of the compilation database (aods.py lines 102-109). -/
structure DbEntry where
  directory : String
  command : String
  file : String
deriving DecidableEq, Repr

/-- JSON string escaping for the characters that can occur in the
emitted fields, as `json.dumps` performs it. -/
def json_escape_char (c : Char) : String :=
  if c = '\\' then "\\\\"
  else if c = '"' then "\\\""
  else if c = '\n' then "\\n"
  else if c = '\t' then "\\t"
  else String.singleton c

/-- Escape a whole string for JSON emission. -/
def json_escape (s : String) : String :=
  String.join (s.data.map json_escape_char)

/-- A JSON string literal. -/
def json_str (s : String) : String :=
  "\"" ++ json_escape s ++ "\""

/-- One `{directory, command, file}` object rendered the way
`json.dumps(..., indent=4)` lays it out inside the array. -/
def entry_json (e : DbEntry) : String :=
  "    \x7b\n        \"directory\": " ++ json_str e.directory ++
    ",\n        \"command\": " ++ json_str e.command ++
    ",\n        \"file\": " ++ json_str e.file ++ "\n    \x7d"

/-- The full compilation-database document:
`json.dumps(data, indent=4)` on the entry list (aods.py line 111). -/
def db_json (es : List DbEntry) : String :=
  if es.isEmpty then "[]"
  else "[\n" ++ String.intercalate ",\n" (es.map entry_json) ++ "\n]"

/-- Write a file: `open(path, "w")` truncates, so the new content
replaces whatever was at that path. -/
def fsWrite (fs : List (String × String)) (path content : String) :
    List (String × String) :=
  (path, content) :: fs.filter (fun e => e.1 ≠ path)

/-- Read back the content at a path, if present. -/
def fsRead (fs : List (String × String)) (path : String) : Option String :=
  (fs.find? (fun e => e.1 = path)).map (fun e => e.2)

/-- Embeds `Context.build` (aods.py lines 91-111).  All `mk_object`
calls run before any file is opened (line 92); the Makefile receives
the link rule then one block per object, and
`<build_dir>/compile_commands.json` receives the JSON document.  The
`root_dir()` value (the resolved path of the invoking script, aods.py
lines 167-172) is passed in as `root`, its resolution having
succeeded. -/
def Context.build (ctx : Context) (r : Runner) (root : String)
    (fs : List (String × String)) : Except String (List (String × String)) :=
  match mk_objects r ctx ctx.sources with
  | Except.error e => Except.error e
  | Except.ok objects =>
    let ex := mk_executable ctx
    let mkContent := ex.1 ++ "\n\t" ++ ex.2 ++ "\n" ++
      String.join (objects.map (fun o => o.1 ++ "\t" ++ o.2.1 ++ "\n"))
    let entries := objects.map (fun o => DbEntry.mk root o.2.1 o.2.2)
    Except.ok (fsWrite (fsWrite fs "Makefile" mkContent)
      (ctx.build_dir ++ "/compile_commands.json") (db_json entries))

/-- A mutation call drawn from addSource / addInclude / addFlag, used
to quantify over arbitrary call sequences. -/
inductive Op where
  | src (xs : List String)
  | inc (xs : List String)
  | flg (xs : List String)

/-- Apply one mutation call to a context. -/
def applyOp (ctx : Context) : Op → Context
  | Op.src xs => ctx.add_source xs
  | Op.inc xs => ctx.add_include xs
  | Op.flg xs => ctx.add_flag xs

/-- Apply a sequence of mutation calls in order. -/
def applyOps (ctx : Context) (ops : List Op) : Context :=
  ops.foldl applyOp ctx

/-- The include directories contributed by one call. -/
def Op.incArgs : Op → List String
  | Op.inc xs => xs
  | _ => []

/-- Stated from the specification sentence for claim C10: the portion
of a name strictly before the first dot. -/
def untilFirstDot (s : String) : String :=
  String.mk (s.data.takeWhile (fun c => c != '.'))

/-- The canonical Makefile text produced by one generation run: the
link rule, then one block per source in call order. -/
def makefileText (r : Runner) (ctx : Context) : String :=
  (mk_executable ctx).1 ++ "\n\t" ++ (mk_executable ctx).2 ++ "\n" ++
    String.join (ctx.sources.map (fun s =>
      (r.run (dep_scan_cmd ctx s)).2.1 ++ "\t" ++ compile_cmd ctx s ++ "\n"))

/-- The canonical compilation-database text produced by one generation
run. -/
def dbText (root : String) (ctx : Context) : String :=
  db_json (ctx.sources.map (fun s => DbEntry.mk root (compile_cmd ctx s) s))

/-- A concrete compiler oracle whose dependency scan always succeeds
with a fixed fragment. -/
def exRunner : Runner :=
  { run := fun _ => (0, "frag: dep\n", "") }

/-- A concrete configuration: one source, one include directory, no
flags yet. -/
def exCtx : Context :=
  { sources := ["main.c"], includes := ["include"], dependencies := [], flags := "",
    libs := "", name := "app", compiler := "cc", build_dir := "build" }

/-- A pkg-config oracle reporting every package as absent. -/
def pcNone : PkgConfig :=
  { exists_rc := fun _ => 1, cflags_run := fun _ => (0, ""), libs_run := fun _ => (0, "") }

/-- A pkg-config oracle where everything is installed and the two
batches `["zlib"]` and `["m"]` contribute distinct non-empty link
flags. -/
def pcTwo : PkgConfig :=
  { exists_rc := fun _ => 0,
    cflags_run := fun _ => (0, "-DX"),
    libs_run := fun ds => (0, if ds = ["zlib"] then "-lz" else "-lm") }

/-- The Makefile text `exCtx` generates under `exRunner`. -/
def exMakefileText : String :=
  "build/app: build/main.o\n\tcc   -o build/app build/main.o\nfrag: dep\n\tcc -c  -Iinclude -o build/main.o main.c\n"

/-- The compilation-database text `exCtx` generates for root
`/proj/setup.py`. -/
def exDbText : String :=
  "[\n    \x7b\n        \"directory\": \"/proj/setup.py\",\n        \"command\": \"cc -c  -Iinclude -o build/main.o main.c\",\n        \"file\": \"main.c\"\n    \x7d\n]"

/-- The file system produced by generating `exCtx` on an empty file
system. -/
def exFs1 : List (String × String) :=
  [("build/compile_commands.json", exDbText), ("Makefile", exMakefileText)]

/-! Helper lemmas. -/

/-- The first field of a Python-style split is the prefix of characters
up to the separator. -/
lemma py_split_fst (sep : Char) (l : List Char) :
    (py_split sep l).1 = l.takeWhile (fun c => c != sep) := by
  induction l with
  | nil => rfl
  | cons c cs ih =>
    by_cases hc : c = sep
    · simp [py_split, hc, List.takeWhile_cons]
    · simp [py_split, hc, List.takeWhile_cons, ih]

/-- `base_name` agrees with the specification's reading of
`name.split(".")[0]`. -/
lemma base_name_eq_untilFirstDot (s : String) : base_name s = untilFirstDot s := by
  unfold base_name untilFirstDot
  rw [py_split_fst]

/-- A successful `mk_object` returns the scan stdout, the compile
command and the source, in that order. -/
lemma mk_object_ok {r : Runner} {ctx : Context} {source : String}
    {out : String × String × String} (h : mk_object r ctx source = Except.ok out) :
    out = ((r.run (dep_scan_cmd ctx source)).2.1, compile_cmd ctx source, source) := by
  simp only [mk_object] at h
  split at h
  · exact Except.noConfusion h
  · cases h
    rfl

/-- A successful `mk_objects` run maps each source to its triple. -/
lemma mk_objects_ok {r : Runner} {ctx : Context} {ss : List String}
    {objs : List (String × String × String)} (h : mk_objects r ctx ss = Except.ok objs) :
    objs = ss.map (fun s => ((r.run (dep_scan_cmd ctx s)).2.1, compile_cmd ctx s, s)) := by
  induction ss generalizing objs with
  | nil =>
    simp only [mk_objects] at h
    cases h
    rfl
  | cons s ss ih =>
    simp only [mk_objects] at h
    split at h
    · exact Except.noConfusion h
    · rename_i o ho
      split at h
      · exact Except.noConfusion h
      · rename_i os hos
        cases h
        rw [List.map_cons, mk_object_ok ho, ih hos]

/-- Reading a freshly written path yields the written content. -/
lemma fsRead_fsWrite_self (fs : List (String × String)) (p c : String) :
    fsRead (fsWrite fs p c) p = some c := by
  simp [fsRead, fsWrite, List.find?]

/-- Dropping the entries at one path does not change lookups at a
different path. -/
lemma find?_filter_ne (fs : List (String × String)) (p q : String) (h : q ≠ p) :
    (fs.filter (fun e => e.1 ≠ p)).find? (fun e => e.1 = q) =
      fs.find? (fun e => e.1 = q) := by
  induction fs with
  | nil => rfl
  | cons e fs ih =>
    rw [List.filter_cons]
    by_cases hp : e.1 = p
    · rw [if_neg (by simp [hp]), ih,
        List.find?_cons_of_neg _ (by simp [hp]; exact fun hh => h hh.symm)]
    · rw [if_pos (by simp [hp])]
      by_cases hq : e.1 = q
      · rw [List.find?_cons_of_pos _ (by simp [hq]),
          List.find?_cons_of_pos _ (by simp [hq])]
      · rw [List.find?_cons_of_neg _ (by simp [hq]),
          List.find?_cons_of_neg _ (by simp [hq]), ih]

/-- Writing one path does not change the content read at another. -/
lemma fsRead_fsWrite_ne (fs : List (String × String)) (p c q : String) (h : q ≠ p) :
    fsRead (fsWrite fs p c) q = fsRead fs q := by
  unfold fsRead fsWrite
  rw [List.find?_cons_of_neg _ (by simp; exact fun hh => h hh.symm)]
  rw [find?_filter_ne fs p q h]

/-- The compilation-database path always differs from `Makefile`. -/
lemma db_path_ne_makefile (b : String) : b ++ "/compile_commands.json" ≠ "Makefile" := by
  intro h
  have hl := congrArg String.length h
  rw [String.length_append] at hl
  have h1 : ("/compile_commands.json" : String).length = 22 := rfl
  have h2 : ("Makefile" : String).length = 8 := rfl
  rw [h1, h2] at hl
  omega

/-- After a successful generation the two artifact files hold exactly
the canonical texts, whatever was on disk before. -/
lemma build_reads {ctx : Context} {r : Runner} {root : String}
    {fs fs2 : List (String × String)} (h : ctx.build r root fs = Except.ok fs2) :
    fsRead fs2 "Makefile" = some (makefileText r ctx) ∧
    fsRead fs2 (ctx.build_dir ++ "/compile_commands.json") = some (dbText root ctx) := by
  rw [Context.build] at h
  split at h
  · exact Except.noConfusion h
  · rename_i objects hobj
    cases h
    constructor
    · rw [fsRead_fsWrite_ne _ _ _ _ (Ne.symm (db_path_ne_makefile ctx.build_dir))]
      rw [fsRead_fsWrite_self]
      unfold makefileText
      rw [mk_objects_ok hobj, List.map_map]
      rfl
    · rw [fsRead_fsWrite_self]
      unfold dbText
      rw [mk_objects_ok hobj, List.map_map]
      rfl

/-- `add_dependency` never changes the output directory. -/
lemma add_dependency_build_dir (ctx : Context) (pc : PkgConfig) (dep : List String) :
    (ctx.add_dependency pc dep).1.build_dir = ctx.build_dir := by
  cases hfi : firstNotInstalled pc dep with
  | some d => simp [Context.add_dependency, hfi]
  | none =>
    cases hcf : pkgconfig_cflags pc dep with
    | error e => simp [Context.add_dependency, hfi, hcf]
    | ok cf =>
      cases hlb : pkgconfig_libs pc dep with
      | error e => simp [Context.add_dependency, hfi, hcf, hlb]
      | ok lb => simp [Context.add_dependency, hfi, hcf, hlb]

/-- `object_name` reads only the output directory of the context. -/
lemma object_name_build_dir (ctx ctx2 : Context) (s : String)
    (hdir : ctx.build_dir = ctx2.build_dir) : object_name ctx s = object_name ctx2 s := by
  unfold object_name
  rw [hdir]

/-- A successful `pkgconfig_cflags` returns the stripped stdout of the
batched query. -/
lemma pkgconfig_cflags_ok {pc : PkgConfig} {dep : List String} {cf : String}
    (h : pkgconfig_cflags pc dep = Except.ok cf) : cf = py_strip (pc.cflags_run dep).2 := by
  simp only [pkgconfig_cflags] at h
  split at h
  · exact Except.noConfusion h
  · cases h
    rfl

/-- A successful `pkgconfig_libs` returns the stripped stdout of the
batched query. -/
lemma pkgconfig_libs_ok {pc : PkgConfig} {dep : List String} {lb : String}
    (h : pkgconfig_libs pc dep = Except.ok lb) : lb = py_strip (pc.libs_run dep).2 := by
  simp only [pkgconfig_libs] at h
  split at h
  · exact Except.noConfusion h
  · cases h
    rfl

/-- One mutation call extends the include list by exactly its include
arguments. -/
lemma applyOp_includes (ctx : Context) (op : Op) :
    (applyOp ctx op).includes = ctx.includes ++ op.incArgs := by
  cases op <;>
    simp [applyOp, Context.add_source, Context.add_include, Context.add_flag, Op.incArgs]

/-- A call sequence extends the include list by the concatenation of
all include arguments, in call order. -/
lemma applyOps_includes (ops : List Op) : ∀ ctx : Context,
    (applyOps ctx ops).includes = ctx.includes ++ (ops.map Op.incArgs).flatten := by
  induction ops with
  | nil => intro ctx; simp [applyOps]
  | cons op ops ih =>
    intro ctx
    have hstep : applyOps ctx (op :: ops) = applyOps (applyOp ctx op) ops := rfl
    rw [hstep, ih, applyOp_includes]
    simp [List.append_assoc]

/-! Claim theorems. -/

/-- C1: after any sequence of addSource/addInclude/addFlag calls, the
compile command generated for a source is exactly
`<compiler> -c <flags> <space-joined -I args> -o <object> <source>`,
with the accumulated flag string, the `-I` arguments in include call
order, the object name for that source, and the source path as
supplied. -/
theorem compile_command_shape (ctx0 : Context) (ops : List Op) (r : Runner)
    (source : String) (out : String × String × String)
    (h : mk_object r (applyOps ctx0 ops) source = Except.ok out) :
    out.2.1 = (applyOps ctx0 ops).compiler ++ " -c " ++ (applyOps ctx0 ops).flags ++ " " ++
        String.intercalate " " ((applyOps ctx0 ops).includes.map (fun i => "-I" ++ i)) ++
        " -o " ++ object_name (applyOps ctx0 ops) source ++ " " ++ source ∧
      (applyOps ctx0 ops).includes = ctx0.includes ++ (ops.map Op.incArgs).flatten := by
  refine ⟨?_, applyOps_includes ops ctx0⟩
  rw [mk_object_ok h]
  rfl

/-- Witness for C1 at a concrete configuration and call sequence. -/
theorem compile_command_shape_witness :
    mk_object exRunner (applyOps exCtx [Op.inc ["inc2"]]) "main.c" =
      Except.ok ("frag: dep\n", "cc -c  -Iinclude -Iinc2 -o build/main.o main.c", "main.c") ∧
    ((("frag: dep\n", "cc -c  -Iinclude -Iinc2 -o build/main.o main.c", "main.c") :
          String × String × String).2.1 =
        (applyOps exCtx [Op.inc ["inc2"]]).compiler ++ " -c " ++
          (applyOps exCtx [Op.inc ["inc2"]]).flags ++ " " ++
          String.intercalate " "
            ((applyOps exCtx [Op.inc ["inc2"]]).includes.map (fun i => "-I" ++ i)) ++
          " -o " ++ object_name (applyOps exCtx [Op.inc ["inc2"]]) "main.c" ++ " " ++
          "main.c" ∧
      (applyOps exCtx [Op.inc ["inc2"]]).includes =
        exCtx.includes ++ ([Op.inc ["inc2"]].map Op.incArgs).flatten) :=
  ⟨by rfl,
   compile_command_shape exCtx [Op.inc ["inc2"]] exRunner "main.c"
     ("frag: dep\n", "cc -c  -Iinclude -Iinc2 -o build/main.o main.c", "main.c") (by rfl)⟩

/-- C2: generation writes the Makefile with the link rule first — a
header `<outputDir>/<name>: <space-joined object names>` followed by
the tab-indented link command — and then one block per source in call
order, each consisting of the compiler-derived dependency fragment
followed by the tab-indented compile command. -/
theorem makefile_layout (ctx : Context) (r : Runner) (root : String)
    (fs fs2 : List (String × String)) (h : ctx.build r root fs = Except.ok fs2) :
    fsRead fs2 "Makefile" = some
      ((ctx.build_dir ++ "/" ++ ctx.name ++ ": " ++
          String.intercalate " " (ctx.sources.map (object_name ctx))) ++ "\n\t" ++
        (ctx.compiler ++ " " ++ ctx.flags ++ " " ++ ctx.libs ++ " -o " ++
          (ctx.build_dir ++ "/" ++ ctx.name) ++ " " ++
          String.intercalate " " (ctx.sources.map (object_name ctx))) ++ "\n" ++
        String.join (ctx.sources.map (fun s =>
          (r.run (dep_scan_cmd ctx s)).2.1 ++ "\t" ++ compile_cmd ctx s ++ "\n"))) :=
  (build_reads h).1

/-- Witness for C2 at a concrete configuration. -/
theorem makefile_layout_witness :
    Context.build exCtx exRunner "/proj/setup.py" [] = Except.ok exFs1 ∧
    fsRead exFs1 "Makefile" = some exMakefileText :=
  ⟨by rfl, makefile_layout exCtx exRunner "/proj/setup.py" [] exFs1 (by rfl)⟩

/-- C3: generation writes, at `<outputDir>/compile_commands.json`, the
JSON array with one entry per source in call order; the entry for a
source has `directory` the resolved root path, `command` the full
compile invocation, and `file` the source path exactly as supplied. -/
theorem compile_db_layout (ctx : Context) (r : Runner) (root : String)
    (fs fs2 : List (String × String)) (h : ctx.build r root fs = Except.ok fs2) :
    fsRead fs2 (ctx.build_dir ++ "/compile_commands.json") =
      some (db_json (ctx.sources.map (fun s => DbEntry.mk root (compile_cmd ctx s) s))) ∧
    (ctx.sources.map (fun s => DbEntry.mk root (compile_cmd ctx s) s)).length =
      ctx.sources.length :=
  ⟨(build_reads h).2, List.length_map _ _⟩

/-- Witness for C3 at a concrete configuration. -/
theorem compile_db_layout_witness :
    Context.build exCtx exRunner "/proj/setup.py" [] = Except.ok exFs1 ∧
    (fsRead exFs1 "build/compile_commands.json" = some exDbText ∧
      (exCtx.sources.map
          (fun s => DbEntry.mk "/proj/setup.py" (compile_cmd exCtx s) s)).length =
        exCtx.sources.length) :=
  ⟨by rfl, compile_db_layout exCtx exRunner "/proj/setup.py" [] exFs1 (by rfl)⟩

/-- C4: when the second package of a two-element dependency batch is
not installed, the call raises the not-installed error and neither
batch member's flags are merged: FlagString and LibString are
unchanged. -/
theorem add_dependency_batch_fail_fast (ctx : Context) (pc : PkgConfig) (d1 d2 : String)
    (h : pkgconfig_is_installed pc d2 = false) :
    (∃ d, (ctx.add_dependency pc [d1, d2]).2 = some ("`" ++ d ++ "` not installed!")) ∧
    (ctx.add_dependency pc [d1, d2]).1.flags = ctx.flags ∧
    (ctx.add_dependency pc [d1, d2]).1.libs = ctx.libs := by
  have hfi : ∃ d, firstNotInstalled pc [d1, d2] = some d := by
    by_cases h1 : pkgconfig_is_installed pc d1
    · exact ⟨d2, by simp [firstNotInstalled, h1, h]⟩
    · exact ⟨d1, by simp [firstNotInstalled, h1]⟩
  obtain ⟨d, hd⟩ := hfi
  refine ⟨⟨d, ?_⟩, ?_, ?_⟩ <;> simp [Context.add_dependency, hd]

/-- Witness for C4 at a concrete two-package batch. -/
theorem add_dependency_batch_fail_fast_witness :
    pkgconfig_is_installed pcNone "png" = false ∧
    ((∃ d, (exCtx.add_dependency pcNone ["zlib", "png"]).2 =
        some ("`" ++ d ++ "` not installed!")) ∧
      (exCtx.add_dependency pcNone ["zlib", "png"]).1.flags = exCtx.flags ∧
      (exCtx.add_dependency pcNone ["zlib", "png"]).1.libs = exCtx.libs) :=
  ⟨by decide, add_dependency_batch_fail_fast exCtx pcNone "zlib" "png" (by decide)⟩

/-- C5 counterexample: a failed addDependency call does leave partial
state — the batch is appended to the dependency list before the
installed check runs, so the configuration is not exactly as before the
call. -/
theorem add_dependency_retains_batch :
    (exCtx.add_dependency pcNone ["zlib"]).2.isSome = true ∧
    (exCtx.add_dependency pcNone ["zlib"]).1.dependencies ≠ exCtx.dependencies := by
  decide

/-- C5 (amended): when a package of the batch fails the installed
check, the call aborts with the not-installed error before touching
FlagString or LibString, but the dependency list has already been
extended by the whole batch. -/
theorem add_dependency_fail_partial_state (ctx : Context) (pc : PkgConfig)
    (dep : List String) (d : String) (h : firstNotInstalled pc dep = some d) :
    (ctx.add_dependency pc dep).1.flags = ctx.flags ∧
    (ctx.add_dependency pc dep).1.libs = ctx.libs ∧
    (ctx.add_dependency pc dep).1.dependencies = ctx.dependencies ++ dep ∧
    (ctx.add_dependency pc dep).2 = some ("`" ++ d ++ "` not installed!") := by
  simp [Context.add_dependency, h]

/-- Witness for the amended C5 at a concrete failing batch. -/
theorem add_dependency_fail_partial_state_witness :
    firstNotInstalled pcNone ["zlib"] = some "zlib" ∧
    ((exCtx.add_dependency pcNone ["zlib"]).1.flags = exCtx.flags ∧
      (exCtx.add_dependency pcNone ["zlib"]).1.libs = exCtx.libs ∧
      (exCtx.add_dependency pcNone ["zlib"]).1.dependencies =
        exCtx.dependencies ++ ["zlib"] ∧
      (exCtx.add_dependency pcNone ["zlib"]).2 = some ("`" ++ "zlib" ++ "` not installed!")) :=
  ⟨by decide, add_dependency_fail_partial_state exCtx pcNone ["zlib"] "zlib" (by decide)⟩

/-- C6: object naming is a pure function of the source's base name and
the output directory — two contexts with the same output directory give
two sources with the same base name the same object name (so distinct
paths sharing a base name silently collide), and no addSource,
addInclude, addFlag or addDependency call changes a source's object
name. -/
theorem object_name_pure (ctx ctx2 : Context) (s s2 : String)
    (hdir : ctx.build_dir = ctx2.build_dir) (hbase : file_name s = file_name s2) :
    object_name ctx s = object_name ctx2 s2 ∧
    (∀ xs, object_name (ctx.add_source xs) s = object_name ctx s) ∧
    (∀ xs, object_name (ctx.add_include xs) s = object_name ctx s) ∧
    (∀ xs, object_name (ctx.add_flag xs) s = object_name ctx s) ∧
    (∀ pc dep, object_name (ctx.add_dependency pc dep).1 s = object_name ctx s) := by
  refine ⟨?_, fun xs => rfl, fun xs => rfl, fun xs => rfl, fun pc dep =>
    object_name_build_dir _ _ _ (add_dependency_build_dir ctx pc dep)⟩
  unfold object_name
  rw [hdir, hbase]

/-- Witness for C6: two distinct paths with the same base name collide
on the same object name. -/
theorem object_name_pure_witness :
    (exCtx.build_dir = exCtx.build_dir ∧ file_name "src/x.c" = file_name "lib/x.c") ∧
    object_name exCtx "src/x.c" = object_name exCtx "lib/x.c" :=
  ⟨⟨rfl, by decide⟩,
   (object_name_pure exCtx exCtx "src/x.c" "lib/x.c" rfl (by decide)).1⟩

/-- C7 counterexample: two successive successful addDependency calls
each contributing non-empty link flags concatenate LibString with no
separating space, so the result is not the earlier LibString, a space,
then the new flags. -/
theorem libstring_not_space_joined :
    ((exCtx.add_dependency pcTwo ["zlib"]).1.add_dependency pcTwo ["m"]).2 = none ∧
    (exCtx.add_dependency pcTwo ["zlib"]).1.libs = "-lz" ∧
    ((exCtx.add_dependency pcTwo ["zlib"]).1.add_dependency pcTwo ["m"]).1.libs = "-lz-lm" ∧
    ((exCtx.add_dependency pcTwo ["zlib"]).1.add_dependency pcTwo ["m"]).1.libs ≠
      (exCtx.add_dependency pcTwo ["zlib"]).1.libs ++ " " ++ "-lm" := by
  decide

/-- C7 (amended): FlagString is accumulated space-joined with no
deduplication, but LibString is accumulated by direct concatenation
with no separator: a successful addDependency call yields the earlier
LibString immediately followed by the new link flags. -/
theorem flag_accumulation (ctx : Context) (pc : PkgConfig) (dep : List String)
    (h : (ctx.add_dependency pc dep).2 = none) :
    (ctx.add_dependency pc dep).1.flags =
      (if ctx.flags ≠ "" then ctx.flags ++ " " else ctx.flags) ++
        py_strip (pc.cflags_run dep).2 ∧
    (ctx.add_dependency pc dep).1.libs = ctx.libs ++ py_strip (pc.libs_run dep).2 := by
  cases hfi : firstNotInstalled pc dep with
  | some d => simp [Context.add_dependency, hfi] at h
  | none =>
    cases hcf : pkgconfig_cflags pc dep with
    | error e => simp [Context.add_dependency, hfi, hcf] at h
    | ok cf =>
      cases hlb : pkgconfig_libs pc dep with
      | error e => simp [Context.add_dependency, hfi, hcf, hlb] at h
      | ok lb =>
        rw [pkgconfig_cflags_ok hcf] at hcf
        rw [pkgconfig_libs_ok hlb] at hlb
        simp [Context.add_dependency, hfi, hcf, hlb]

/-- Witness for the amended C7 at a concrete successful call. -/
theorem flag_accumulation_witness :
    (exCtx.add_dependency pcTwo ["zlib"]).2 = none ∧
    ((exCtx.add_dependency pcTwo ["zlib"]).1.flags =
        (if exCtx.flags ≠ "" then exCtx.flags ++ " " else exCtx.flags) ++
          py_strip (pcTwo.cflags_run ["zlib"]).2 ∧
      (exCtx.add_dependency pcTwo ["zlib"]).1.libs =
        exCtx.libs ++ py_strip (pcTwo.libs_run ["zlib"]).2) :=
  ⟨by decide, flag_accumulation exCtx pcTwo ["zlib"] (by decide)⟩

/-- C8 (documents the code bug): `make_dir` swallows every directory
creation failure — here a permission error — instead of failing for
reasons other than "already exists", so configuration creation succeeds
even when the output directory could not be created. -/
theorem make_dir_swallows_failures :
    make_dir (fun _ => MkdirResult.permissionDenied) "build" = Except.ok () ∧
    make_dir (fun _ => MkdirResult.otherError) "build" = Except.ok () ∧
    Context.create (fun _ => MkdirResult.permissionDenied) "app" "cc" "build" =
      Except.ok { sources := [], includes := [], dependencies := [], flags := "",
                  libs := "", name := "app", compiler := "cc", build_dir := "build" } :=
  ⟨rfl, rfl, rfl⟩

/-- C9: with the external compiler returning the same outputs, two
generate calls on the unmodified configuration leave byte-identical
Makefile and compilation-database contents — the second run overwrites
the first run's artifacts with the same bytes rather than appending. -/
theorem generate_deterministic (ctx : Context) (r : Runner) (root : String)
    (fs fs1 fs2 : List (String × String))
    (h1 : ctx.build r root fs = Except.ok fs1)
    (h2 : ctx.build r root fs1 = Except.ok fs2) :
    fsRead fs2 "Makefile" = fsRead fs1 "Makefile" ∧
    fsRead fs2 (ctx.build_dir ++ "/compile_commands.json") =
      fsRead fs1 (ctx.build_dir ++ "/compile_commands.json") := by
  obtain ⟨ha1, ha2⟩ := build_reads h1
  obtain ⟨hb1, hb2⟩ := build_reads h2
  rw [ha1, ha2, hb1, hb2]
  exact ⟨rfl, rfl⟩

/-- Witness for C9: generating twice in a row at a concrete
configuration leaves the same artifact bytes. -/
theorem generate_deterministic_witness :
    (Context.build exCtx exRunner "/proj/setup.py" [] = Except.ok exFs1 ∧
      Context.build exCtx exRunner "/proj/setup.py" exFs1 = Except.ok exFs1) ∧
    (fsRead exFs1 "Makefile" = fsRead exFs1 "Makefile" ∧
      fsRead exFs1 "build/compile_commands.json" =
        fsRead exFs1 "build/compile_commands.json") :=
  ⟨⟨by rfl, by rfl⟩,
   generate_deterministic exCtx exRunner "/proj/setup.py" [] exFs1 exFs1 (by rfl) (by rfl)⟩

/-- C10: the object name is the output directory joined with the
portion of the source's base name strictly before the first dot plus
`.o`; a multi-dot basename such as `a.b.c` contributes only `a`, and a
dotless basename is used whole. -/
theorem object_name_first_dot (ctx : Context) (s : String) :
    object_name ctx s = ctx.build_dir ++ "/" ++ untilFirstDot (file_name s) ++ ".o" ∧
    object_name ctx "dir/a.b.c" = ctx.build_dir ++ "/" ++ "a" ++ ".o" ∧
    base_name "a.b.c" = "a" ∧
    base_name "nodot" = "nodot" := by
  refine ⟨?_, ?_, by decide, by decide⟩
  · unfold object_name
    rw [base_name_eq_untilFirstDot]
  · rfl

end Aods
